import Mathlib

/-!
Shallow embedding of the Arduino motor-control firmware
(src/sketch_jan13a/sketch_jan13a.ino) and proofs about the claims of its
specification.

Modelling conventions:
* `int` values (motor speeds, calibration constants, sensor levels, pin
  numbers, motor ids) are modelled as `Int`; all values handled by the
  claims stay far inside the 16-bit range of the AVR `int`, so no wrap is
  modelled for them.
* `unsigned long` (the millisecond clock, move durations) is modelled as
  `Nat` reduced modulo `2^32`; the C expression `millis() - start` on
  `unsigned long` is the wrap-around difference `usub`.
* Hardware effects (digitalWrite / analogWrite / delay / serial output)
  are recorded in an `Event` trace; in addition the levels of the motor
  driver pins are tracked in the machine state so that frame properties
  can be stated on states.
* Fallible dispatch paths (the C code passes a `NULL` token into
  `atoi` / `strcmp`, which is undefined behaviour) are modelled with
  `Option`: `none` marks the undefined-behaviour paths.
* Serial lines built with `Serial.print` chains are modelled as the full
  concatenated line.  The Arduino formatting of `float` arguments
  (`MOVE_DIST`, `TURN` info lines) is abstracted by keeping the raw
  argument token; no claim depends on those lines.
-/

namespace MotorCtl

/-- Pin number of the motor A enable (PWM) output, `ENA = 5` in the source. -/
def ENA : Int := 5

/-- Pin number of motor A direction pin 1, `IN1 = 7`. -/
def IN1 : Int := 7

/-- Pin number of motor A direction pin 2, `IN2 = 8`. -/
def IN2 : Int := 8

/-- Pin number of the motor B enable (PWM) output, `ENB = 6`. -/
def ENB : Int := 6

/-- Pin number of motor B direction pin 1, `IN3 = 9`. -/
def IN3 : Int := 9

/-- Pin number of motor B direction pin 2, `IN4 = 11`. -/
def IN4 : Int := 11

/-- First digital sensor pin, `SENSOR_PIN_1 = 2`. -/
def SENSOR_PIN_1 : Int := 2

/-- Second digital sensor pin, `SENSOR_PIN_2 = 3`. -/
def SENSOR_PIN_2 : Int := 3

/-- Feedback motor forward direction pin, `FEEDBACK_MOTOR_PIN_FWD = 12`. -/
def FEEDBACK_MOTOR_PIN_FWD : Int := 12

/-- Feedback motor reverse direction pin, `FEEDBACK_MOTOR_PIN_REV = 13`. -/
def FEEDBACK_MOTOR_PIN_REV : Int := 13

/-- Sensor polling period, `SENSOR_CHECK_INTERVAL = 250` ms. -/
def SENSOR_CHECK_INTERVAL : Nat := 250

/-- Modulus of the 32-bit `unsigned long` arithmetic. -/
def U32 : Nat := 4294967296

/-- The wrap-around difference `a - b` on `unsigned long` values. -/
def usub (a b : Nat) : Nat :=
  (a % U32 + (U32 - b % U32)) % U32

/-- Conversion of a (possibly negative) integer to `unsigned long`,
as C does when an `atol` result is stored into an `unsigned long`. -/
def toU32 (v : Int) : Nat :=
  (v.emod (U32 : Int)).toNat

/-- Hardware / serial effects emitted while a piece of firmware code runs. -/
inductive Event where
  | digitalWrite (pin : Int) (level : Bool)
  | analogWrite (pin : Int) (value : Int)
  | pinModeOut (pin : Int)
  | delayMs (ms : Nat)
  | serialLine (line : String)
deriving DecidableEq

/-- The serial lines contained in an event trace, in order. -/
def serialOut (evs : List Event) : List String :=
  evs.filterMap fun e =>
    match e with
    | Event.serialLine l => some l
    | _ => none

/-- The mutable global state of the sketch: motor speed settings, tracked
pin levels, EEPROM-backed calibration, the sensor-reporting flag, the
single timed-move slot and the sensor bookkeeping.  `eeprom_mm` and
`eeprom_deg` model the two EEPROM cells. -/
structure State where
  motor_speeds0 : Int
  motor_speeds1 : Int
  in1 : Bool
  in2 : Bool
  in3 : Bool
  in4 : Bool
  ena : Int
  enb : Int
  fb_fwd : Bool
  fb_rev : Bool
  ms_per_mm : Int
  ms_per_deg : Int
  eeprom_mm : Int
  eeprom_deg : Int
  sensor_report_enabled : Bool
  move_timer_start : Nat
  move_duration : Nat
  timed_move_motor_id : Int
  sensor1_last_state : Int
  sensor2_last_state : Int
  last_sensor_check : Nat
deriving DecidableEq

/-- Analog inputs read by `trackSun` (the two light-dependent resistors). -/
structure Inputs where
  ldrL : Int
  ldrR : Int
deriving DecidableEq

/-- Effect of `digitalWrite(pin, level)` on the tracked pin levels. -/
def digitalWrite (pin : Int) (level : Bool) (s : State) : State :=
  if pin = IN1 then { s with in1 := level }
  else if pin = IN2 then { s with in2 := level }
  else if pin = IN3 then { s with in3 := level }
  else if pin = IN4 then { s with in4 := level }
  else if pin = FEEDBACK_MOTOR_PIN_FWD then { s with fb_fwd := level }
  else if pin = FEEDBACK_MOTOR_PIN_REV then { s with fb_rev := level }
  else s

/-- Effect of `analogWrite(pin, value)` on the tracked PWM outputs. -/
def analogWrite (pin : Int) (v : Int) (s : State) : State :=
  if pin = ENA then { s with ena := v }
  else if pin = ENB then { s with enb := v }
  else s

/-- Accumulate the decimal digits of an `atoi`-style scan. -/
def readDigits (acc : Int) : List Char → Int
  | c :: cs => if c.isDigit then readDigits (acc * 10 + ((c.toNat : Int) - 48)) cs else acc
  | [] => acc

/-- The C `atoi` (and, at the value range used here, `atol`): skip leading
whitespace, read an optional sign, then decimal digits until the first
non-digit. -/
def c_atoi (str : String) : Int :=
  match str.toList.dropWhile Char.isWhitespace with
  | '-' :: rest => - readDigits 0 rest
  | '+' :: rest => readDigits 0 rest
  | rest => readDigits 0 rest

/-- The Arduino `map` utility as present in the source (lines 52-55):
integer arithmetic with C truncating division. -/
def c_map (x in_min in_max out_min out_max : Int) : Int :=
  if in_max = in_min then out_min
  else Int.tdiv ((x - in_min) * (out_max - out_min)) (in_max - in_min) + out_min

/-- `runMotor(id, forward)`: set the direction pins of motor `id` and write
its stored speed setting to its PWM output; ids other than 0 and 1 do
nothing. -/
def runMotor (id : Int) (forward : Bool) (s : State) : State × List Event :=
  if id = 0 then
    (analogWrite ENA s.motor_speeds0 (digitalWrite IN2 (!forward) (digitalWrite IN1 forward s)),
     [Event.digitalWrite IN1 forward, Event.digitalWrite IN2 (!forward),
      Event.analogWrite ENA s.motor_speeds0])
  else if id = 1 then
    (analogWrite ENB s.motor_speeds1 (digitalWrite IN4 (!forward) (digitalWrite IN3 forward s)),
     [Event.digitalWrite IN3 forward, Event.digitalWrite IN4 (!forward),
      Event.analogWrite ENB s.motor_speeds1])
  else (s, [])

/-- `stopMotor(id)`: drive both direction pins of motor `id` low and its
PWM output to 0; ids other than 0 and 1 do nothing. -/
def stopMotor (id : Int) (s : State) : State × List Event :=
  if id = 0 then
    (analogWrite ENA 0 (digitalWrite IN2 false (digitalWrite IN1 false s)),
     [Event.digitalWrite IN1 false, Event.digitalWrite IN2 false, Event.analogWrite ENA 0])
  else if id = 1 then
    (analogWrite ENB 0 (digitalWrite IN4 false (digitalWrite IN3 false s)),
     [Event.digitalWrite IN3 false, Event.digitalWrite IN4 false, Event.analogWrite ENB 0])
  else (s, [])

/-- `homeMotor(id)`: a stub that only prints an informational line. -/
def homeMotor (id : Int) (s : State) : State × List Event :=
  (s, [Event.serialLine ("INFO:Homing for motor " ++ toString id ++ " not yet implemented.")])

/-- `startTimedMove(id, forward, duration)`: record the slot fields and
start the motor. -/
def startTimedMove (now : Nat) (id : Int) (forward : Bool) (duration : Nat) (s : State) :
    State × List Event :=
  let s1 := { s with timed_move_motor_id := id, move_duration := duration,
                     move_timer_start := now % U32 }
  runMotor id forward s1

/-- `updateTimedMove()`: if a timed move is active and the wrap-around
elapsed time has reached the duration, stop the motor and clear the slot.
The source emits no serial output on this path. -/
def updateTimedMove (now : Nat) (s : State) : State × List Event :=
  if s.timed_move_motor_id ≠ -1 then
    if s.move_duration ≤ usub now s.move_timer_start then
      let r := stopMotor s.timed_move_motor_id s
      ({ r.1 with timed_move_motor_id := -1 }, r.2)
    else (s, [])
  else (s, [])

/-- `updateSensorStates()`: every `SENSOR_CHECK_INTERVAL` ms read both
digital sensors (`d2`, `d3` are the freshly read levels) and emit a
`SENSOR_STATE` line for each one whose level differs from the stored one,
updating the stored level. -/
def updateSensorStates (now : Nat) (d2 d3 : Int) (s : State) : State × List Event :=
  if SENSOR_CHECK_INTERVAL ≤ usub now s.last_sensor_check then
    let s0 := { s with last_sensor_check := now % U32 }
    let r1 : State × List Event :=
      if d2 ≠ s0.sensor1_last_state then
        ({ s0 with sensor1_last_state := d2 },
         [Event.serialLine ("SENSOR_STATE:" ++ toString SENSOR_PIN_1 ++ ":" ++ toString d2)])
      else (s0, [])
    let r2 : State × List Event :=
      if d3 ≠ r1.1.sensor2_last_state then
        ({ r1.1 with sensor2_last_state := d3 },
         [Event.serialLine ("SENSOR_STATE:" ++ toString SENSOR_PIN_2 ++ ":" ++ toString d3)])
      else (r1.1, [])
    (r2.1, r1.2 ++ r2.2)
  else (s, [])

/-- Validation applied to the ms-per-mm value loaded from EEPROM in
`setup()`: non-positive values fall back to the default 50. -/
def loadCalMm (stored : Int) : Int :=
  if stored ≤ 0 then 50 else stored

/-- Validation applied to the ms-per-deg value loaded from EEPROM in
`setup()`: non-positive values fall back to the default 10. -/
def loadCalDeg (stored : Int) : Int :=
  if stored ≤ 0 then 10 else stored

/-- Initial values of the globals at reset, with the EEPROM contents
`emm` / `edeg`; pins are low before `setup` configures anything. -/
def initState (emm edeg : Int) : State where
  motor_speeds0 := 255
  motor_speeds1 := 255
  in1 := false
  in2 := false
  in3 := false
  in4 := false
  ena := 0
  enb := 0
  fb_fwd := false
  fb_rev := false
  ms_per_mm := 50
  ms_per_deg := 10
  eeprom_mm := emm
  eeprom_deg := edeg
  sensor_report_enabled := true
  move_timer_start := 0
  move_duration := 0
  timed_move_motor_id := -1
  sensor1_last_state := -1
  sensor2_last_state := -1
  last_sensor_check := 0

/-- Arduino `setup()` restricted to its state-relevant actions: load and
validate the calibration from EEPROM, stop both motors, print the boot
banner. -/
def setup (emm edeg : Int) : State × List Event :=
  let s := initState emm edeg
  let s := { s with ms_per_mm := loadCalMm emm, ms_per_deg := loadCalDeg edeg }
  let r0 := stopMotor 0 s
  let r1 := stopMotor 1 r0.1
  (r1.1, r0.2 ++ r1.2 ++
    [Event.serialLine ("STATUS:Arduino Ready. CAL:MS_PER_MM:" ++ toString r1.1.ms_per_mm ++
      ":MS_PER_DEG:" ++ toString r1.1.ms_per_deg)])

/-- Handler of `MOTOR_CMD:<id>:<FWD|REV|STOP|HOME>`.  A missing token flows
into `atoi(NULL)` / `strcmp(NULL, ..)` in the source, so it is `none`. -/
def handleMotorCmd (args : List String) (s : State) : Option (State × List Event) :=
  match args with
  | id_tok :: sub_cmd :: _ =>
    let id := c_atoi id_tok
    if sub_cmd = "FWD" then some (runMotor id true s)
    else if sub_cmd = "REV" then some (runMotor id false s)
    else if sub_cmd = "STOP" then some (stopMotor id s)
    else if sub_cmd = "HOME" then some (homeMotor id s)
    else some (s, [])
  | _ => none

/-- Handler of `SET_SPEED:<id|*>:<percent>`: maps the percentage through
the Arduino `map` to 0..255 and stores it for the named motor (or both
for `*`); numeric ids outside 0..1 are ignored. -/
def handleSetSpeed (args : List String) (s : State) : Option (State × List Event) :=
  match args with
  | id_str :: sp_tok :: _ =>
    let speed_percent := c_atoi sp_tok
    let speed_val := c_map speed_percent 0 100 0 255
    if id_str = "*" then
      some ({ s with motor_speeds0 := speed_val, motor_speeds1 := speed_val }, [])
    else
      let id := c_atoi id_str
      if 0 ≤ id ∧ id < 2 then
        if id = 0 then some ({ s with motor_speeds0 := speed_val }, [])
        else some ({ s with motor_speeds1 := speed_val }, [])
      else some (s, [])
  | _ => none

/-- Handler of `SET_OUTPUT:<pin>:<state>`: configures the pin as output
and writes the level (non-zero is high). -/
def handleSetOutput (args : List String) (s : State) : Option (State × List Event) :=
  match args with
  | pin_tok :: st_tok :: _ =>
    let pin := c_atoi pin_tok
    let st := c_atoi st_tok
    some (digitalWrite pin (st != 0) s,
      [Event.pinModeOut pin, Event.digitalWrite pin (st != 0)])
  | _ => none

/-- Handler of `GET_CAL`: prints the current calibration values. -/
def handleGetCal (s : State) : State × List Event :=
  (s, [Event.serialLine ("CAL:MS_PER_MM:" ++ toString s.ms_per_mm ++
        ":MS_PER_DEG:" ++ toString s.ms_per_deg)])

/-- Handler of `SET_CAL:<key>:<value>`: stores the parsed value in the
named calibration field and in EEPROM, echoing it; an unknown key or a
missing token produces an error line. -/
def handleSetCal (args : List String) (s : State) : State × List Event :=
  match args with
  | key :: val :: _ =>
    let v := c_atoi val
    if key = "MS_PER_MM" then
      ({ s with ms_per_mm := v, eeprom_mm := v },
       [Event.serialLine ("SET_CAL:MS_PER_MM:" ++ toString v)])
    else if key = "MS_PER_DEG" then
      ({ s with ms_per_deg := v, eeprom_deg := v },
       [Event.serialLine ("SET_CAL:MS_PER_DEG:" ++ toString v)])
    else (s, [Event.serialLine "ERROR:Unknown calibration key"])
  | _ => (s, [Event.serialLine "ERROR:SET_CAL invalid format"])

/-- Handler of `PIN_TEST`: saves the stored speed settings, zeroes both
PWM enables, pulses `IN1`/`IN3` high (with `IN2`/`IN4` low), waits 200 ms,
drives all four direction pins low, prints `PIN_TEST:OK`, then writes the
saved speed settings back to the PWM enables. -/
def handlePinTest (s : State) : State × List Event :=
  let prevENA := s.motor_speeds0
  let prevENB := s.motor_speeds1
  let s := analogWrite ENA 0 s
  let s := analogWrite ENB 0 s
  let s := digitalWrite IN1 true s
  let s := digitalWrite IN2 false s
  let s := digitalWrite IN3 true s
  let s := digitalWrite IN4 false s
  let s := digitalWrite IN1 false s
  let s := digitalWrite IN2 false s
  let s := digitalWrite IN3 false s
  let s := digitalWrite IN4 false s
  let s := analogWrite ENA prevENA s
  let s := analogWrite ENB prevENB s
  (s, [Event.analogWrite ENA 0, Event.analogWrite ENB 0,
       Event.digitalWrite IN1 true, Event.digitalWrite IN2 false,
       Event.digitalWrite IN3 true, Event.digitalWrite IN4 false,
       Event.delayMs 200,
       Event.digitalWrite IN1 false, Event.digitalWrite IN2 false,
       Event.digitalWrite IN3 false, Event.digitalWrite IN4 false,
       Event.serialLine "PIN_TEST:OK",
       Event.analogWrite ENA prevENA, Event.analogWrite ENB prevENB])

/-- Handler of `MOVE_TIME:<id>:<FWD|REV>:<duration>`: starts (or replaces)
the single timed move. -/
def handleMoveTime (now : Nat) (args : List String) (s : State) :
    Option (State × List Event) :=
  match args with
  | id_tok :: dir :: dur_tok :: _ =>
    let id := c_atoi id_tok
    let duration := toU32 (c_atoi dur_tok)
    some (startTimedMove now id (dir == "FWD") duration s)
  | _ => none

/-- `moveMotorDistance(id, distance)`: info line, feedback motor on, main
motor forward for a fixed 250 ms, then everything stopped.  The distance
argument only appears in the info line (float formatting abstracted as
the raw token). -/
def moveMotorDistance (id : Int) (dist_tok : String) (s : State) : State × List Event :=
  let s1 := digitalWrite FEEDBACK_MOTOR_PIN_REV false (digitalWrite FEEDBACK_MOTOR_PIN_FWD true s)
  let r2 := runMotor id true s1
  let r3 := stopMotor id r2.1
  let s4 := digitalWrite FEEDBACK_MOTOR_PIN_REV false
              (digitalWrite FEEDBACK_MOTOR_PIN_FWD false r3.1)
  (s4, [Event.serialLine ("INFO:MOVE_DIST for motor " ++ toString id ++ " by " ++ dist_tok ++ "mm"),
        Event.digitalWrite FEEDBACK_MOTOR_PIN_FWD true,
        Event.digitalWrite FEEDBACK_MOTOR_PIN_REV false] ++
       r2.2 ++ [Event.delayMs 250] ++ r3.2 ++
       [Event.digitalWrite FEEDBACK_MOTOR_PIN_FWD false,
        Event.digitalWrite FEEDBACK_MOTOR_PIN_REV false])

/-- `turnMotor(id, degrees)`: identical fixed-250 ms behaviour to
`moveMotorDistance`, with a different info line. -/
def turnMotor (id : Int) (deg_tok : String) (s : State) : State × List Event :=
  let s1 := digitalWrite FEEDBACK_MOTOR_PIN_REV false (digitalWrite FEEDBACK_MOTOR_PIN_FWD true s)
  let r2 := runMotor id true s1
  let r3 := stopMotor id r2.1
  let s4 := digitalWrite FEEDBACK_MOTOR_PIN_REV false
              (digitalWrite FEEDBACK_MOTOR_PIN_FWD false r3.1)
  (s4, [Event.serialLine ("INFO:TURN for motor " ++ toString id ++ " by " ++ deg_tok ++ " degrees."),
        Event.digitalWrite FEEDBACK_MOTOR_PIN_FWD true,
        Event.digitalWrite FEEDBACK_MOTOR_PIN_REV false] ++
       r2.2 ++ [Event.delayMs 250] ++ r3.2 ++
       [Event.digitalWrite FEEDBACK_MOTOR_PIN_FWD false,
        Event.digitalWrite FEEDBACK_MOTOR_PIN_REV false])

/-- Handler of `MOVE_DIST:<id>:<distance>`. -/
def handleMoveDist (args : List String) (s : State) : Option (State × List Event) :=
  match args with
  | id_tok :: dist_tok :: _ => some (moveMotorDistance (c_atoi id_tok) dist_tok s)
  | _ => none

/-- Handler of `TURN:<id>:<degrees>`. -/
def handleTurn (args : List String) (s : State) : Option (State × List Event) :=
  match args with
  | id_tok :: deg_tok :: _ => some (turnMotor (c_atoi id_tok) deg_tok s)
  | _ => none

/-- `calibrateMotors()`: placeholder narration with a 2 s delay. -/
def calibrateMotors (s : State) : State × List Event :=
  (s, [Event.serialLine "INFO:Starting motor calibration...",
       Event.delayMs 2000,
       Event.serialLine "INFO:Motor calibration complete."])

/-- `calibrateSensors()`: placeholder narration with two 3 s delays. -/
def calibrateSensors (s : State) : State × List Event :=
  (s, [Event.serialLine "INFO:Starting sensor calibration...",
       Event.serialLine "INFO:Please cover light sensors now.",
       Event.delayMs 3000,
       Event.serialLine "INFO:Please expose light sensors to bright light.",
       Event.delayMs 3000,
       Event.serialLine "INFO:Sensor calibration complete."])

/-- Handler of `CALIBRATE:<MOTORS|SENSORS>`. -/
def handleCalibrate (args : List String) (s : State) : Option (State × List Event) :=
  match args with
  | t :: _ =>
    if t = "MOTORS" then some (calibrateMotors s)
    else if t = "SENSORS" then some (calibrateSensors s)
    else some (s, [])
  | [] => none

/-- `trackSun()`: read the two light sensors, print them, and if the
imbalance exceeds the tolerance of 50, run motor 0 toward the brighter
side for a 50 ms burst and stop it. -/
def trackSun (inp : Inputs) (s : State) : State × List Event :=
  let left_val := inp.ldrL
  let right_val := inp.ldrR
  let e0 := [Event.serialLine ("INFO:Sun tracking check. L:" ++ toString left_val ++
              " R:" ++ toString right_val)]
  let error := left_val - right_val
  if 50 < error.natAbs then
    let r1 := runMotor 0 (decide (0 < error)) s
    let r2 := stopMotor 0 r1.1
    (r2.1, e0 ++ r1.2 ++ [Event.delayMs 50] ++ r2.2)
  else (s, e0)

/-- `testMotor(id)`: info line, run forward for 250 ms, stop, info line. -/
def testMotor (id : Int) (s : State) : State × List Event :=
  let r1 := runMotor id true s
  let r2 := stopMotor id r1.1
  (r2.1, [Event.serialLine ("INFO:Testing motor " ++ toString id)] ++
         r1.2 ++ [Event.delayMs 250] ++ r2.2 ++
         [Event.serialLine "INFO:Test complete."])

/-- Handler of `TEST_MOTOR:<id>`. -/
def handleTestMotor (args : List String) (s : State) : Option (State × List Event) :=
  match args with
  | id_tok :: _ => some (testMotor (c_atoi id_tok) s)
  | [] => none

/-- Handler of `SENSOR_REPORT:<ON|OFF>`: sets the reporting flag and
acknowledges; any other mode (or a missing one) is NACKed without
touching the flag. -/
def handleSensorReport (args : List String) (s : State) : State × List Event :=
  match args with
  | mode :: _ =>
    if mode = "ON" ∨ mode = "OFF" then
      ({ s with sensor_report_enabled := mode == "ON" },
       [Event.serialLine ("SENSOR_REPORT:" ++ (if mode == "ON" then "ON" else "OFF")),
        Event.serialLine "ACK:SENSOR_REPORT"])
    else (s, [Event.serialLine ("NACK:SENSOR_REPORT:" ++ mode)])
  | [] => (s, [Event.serialLine "NACK:SENSOR_REPORT:<none>"])

/-- The `if/else` chain of `handleSerialCommands` over the first token
of the received line; an unknown command echoes `Invalid Command:<name>`. -/
def dispatchCmd (now : Nat) (inp : Inputs) (command : String) (args : List String)
    (s : State) : Option (State × List Event) :=
  if command = "MOTOR_CMD" then handleMotorCmd args s
    else if command = "SET_SPEED" then handleSetSpeed args s
    else if command = "SET_OUTPUT" then handleSetOutput args s
    else if command = "GET_CAL" then some (handleGetCal s)
    else if command = "SET_CAL" then some (handleSetCal args s)
    else if command = "PIN_TEST" then some (handlePinTest s)
    else if command = "MOVE_TIME" then handleMoveTime now args s
    else if command = "MOVE_DIST" then handleMoveDist args s
    else if command = "TURN" then handleTurn args s
    else if command = "CALIBRATE" then handleCalibrate args s
    else if command = "TRACK_SUN" then some (trackSun inp s)
    else if command = "TEST_MOTOR" then handleTestMotor args s
    else if command = "SENSOR_REPORT" then some (handleSensorReport args s)
    else some (s, [Event.serialLine ("Invalid Command:" ++ command)])

/-- The command dispatcher (the body of `handleSerialCommands` after
tokenizing): `toks` is the strtok output; an empty line (a `NULL`
command token) is silently ignored. -/
def dispatch (now : Nat) (inp : Inputs) (toks : List String) (s : State) :
    Option (State × List Event) :=
  match toks with
  | [] => some (s, [])
  | command :: args => dispatchCmd now inp command args s

/-- Number of active timed moves representable in the state: the source
has a single global slot, active exactly when `timed_move_motor_id` is
not the `-1` sentinel. -/
def activeMoves (s : State) : Nat :=
  if s.timed_move_motor_id = -1 then 0 else 1

/-- The pair of calibration fields, used to state frame properties. -/
def calOf (s : State) : Int × Int :=
  (s.ms_per_mm, s.ms_per_deg)

/-- The three fields of the single timed-move slot. -/
def slotOf (s : State) : Int × Nat × Nat :=
  (s.timed_move_motor_id, s.move_timer_start, s.move_duration)

/-- Modelled from the spec (claim C2): the speed mapping the claim
asserts, `round(p * 255 / 100)` clamped to `[0, 255]`, written
`floor((p * 510 + 100) / 200)` on integers.  Defined only to be compared
against the code's `c_map`. -/
def specSpeedOfPercent (p : Int) : Int :=
  max 0 (min 255 ((p * 510 + 100) / 200))

/-- A fixed analog-input reading used by concrete test states. -/
def exInputs : Inputs := ⟨0, 0⟩

/-- A concrete state with a timed move active for motor 0, started at
time 0 with a duration of 1000 ms (as after `MOVE_TIME:0:FWD:1000`). -/
def exMoveState : State :=
  { (setup 0 0).1 with timed_move_motor_id := 0, move_timer_start := 0,
                       move_duration := 1000, in1 := true, ena := 255 }

section Helpers

/-- Emitting events through `++` splits `serialOut`. -/
theorem serialOut_append (a b : List Event) :
    serialOut (a ++ b) = serialOut a ++ serialOut b := by
  simp [serialOut]

/-- The trace of `stopMotor` contains no serial line. -/
theorem serialOut_stopMotor (id : Int) (s : State) :
    serialOut (stopMotor id s).2 = [] := by
  unfold stopMotor
  split_ifs <;> rfl

/-- The trace of `runMotor` contains no serial line. -/
theorem serialOut_runMotor (id : Int) (forward : Bool) (s : State) :
    serialOut (runMotor id forward s).2 = [] := by
  unfold runMotor
  split_ifs <;> rfl

/-- Pin writes do not touch the calibration fields. -/
theorem calOf_digitalWrite (pin : Int) (b : Bool) (s : State) :
    calOf (digitalWrite pin b s) = calOf s := by
  unfold digitalWrite
  split_ifs <;> rfl

/-- PWM writes do not touch the calibration fields. -/
theorem calOf_analogWrite (pin v : Int) (s : State) :
    calOf (analogWrite pin v s) = calOf s := by
  unfold analogWrite
  split_ifs <;> rfl

/-- Running a motor does not touch the calibration fields. -/
theorem calOf_runMotor (id : Int) (f : Bool) (s : State) :
    calOf (runMotor id f s).1 = calOf s := by
  unfold runMotor
  split_ifs <;> simp [calOf_analogWrite, calOf_digitalWrite]

/-- Stopping a motor does not touch the calibration fields. -/
theorem calOf_stopMotor (id : Int) (s : State) :
    calOf (stopMotor id s).1 = calOf s := by
  unfold stopMotor
  split_ifs <;> simp [calOf_analogWrite, calOf_digitalWrite]

/-- Starting a timed move does not touch the calibration fields. -/
theorem calOf_startTimedMove (now : Nat) (id : Int) (f : Bool) (dur : Nat) (s : State) :
    calOf (startTimedMove now id f dur s).1 = calOf s := by
  unfold startTimedMove
  rw [calOf_runMotor]
  rfl

/-- Pin writes do not touch the timed-move slot. -/
theorem slotOf_digitalWrite (pin : Int) (b : Bool) (s : State) :
    slotOf (digitalWrite pin b s) = slotOf s := by
  unfold digitalWrite
  split_ifs <;> rfl

/-- PWM writes do not touch the timed-move slot. -/
theorem slotOf_analogWrite (pin v : Int) (s : State) :
    slotOf (analogWrite pin v s) = slotOf s := by
  unfold analogWrite
  split_ifs <;> rfl

/-- Running a motor does not touch the timed-move slot. -/
theorem slotOf_runMotor (id : Int) (f : Bool) (s : State) :
    slotOf (runMotor id f s).1 = slotOf s := by
  unfold runMotor
  split_ifs <;> simp [slotOf_analogWrite, slotOf_digitalWrite]

/-- Stopping a motor does not touch the timed-move slot. -/
theorem slotOf_stopMotor (id : Int) (s : State) :
    slotOf (stopMotor id s).1 = slotOf s := by
  unfold stopMotor
  split_ifs <;> simp [slotOf_analogWrite, slotOf_digitalWrite]

/-- After `startTimedMove` the slot holds exactly the new move. -/
theorem slotOf_startTimedMove (now : Nat) (id : Int) (f : Bool) (dur : Nat) (s : State) :
    slotOf (startTimedMove now id f dur s).1 = (id, now % U32, dur) := by
  unfold startTimedMove
  rw [slotOf_runMotor]
  rfl

/-- Dispatch reduction for `MOTOR_CMD`. -/
theorem dispatch_motor_cmd (now : Nat) (inp : Inputs) (args : List String) (s : State) :
    dispatch now inp ("MOTOR_CMD" :: args) s = handleMotorCmd args s := by
  simp [dispatch, dispatchCmd]

/-- Dispatch reduction for `SET_SPEED`. -/
theorem dispatch_set_speed (now : Nat) (inp : Inputs) (args : List String) (s : State) :
    dispatch now inp ("SET_SPEED" :: args) s = handleSetSpeed args s := by
  simp [dispatch, dispatchCmd]

/-- Dispatch reduction for `GET_CAL`. -/
theorem dispatch_get_cal (now : Nat) (inp : Inputs) (args : List String) (s : State) :
    dispatch now inp ("GET_CAL" :: args) s = some (handleGetCal s) := by
  simp [dispatch, dispatchCmd]

/-- Dispatch reduction for `SET_CAL`. -/
theorem dispatch_set_cal (now : Nat) (inp : Inputs) (args : List String) (s : State) :
    dispatch now inp ("SET_CAL" :: args) s = some (handleSetCal args s) := by
  simp [dispatch, dispatchCmd]

/-- Dispatch reduction for `PIN_TEST`. -/
theorem dispatch_pin_test (now : Nat) (inp : Inputs) (args : List String) (s : State) :
    dispatch now inp ("PIN_TEST" :: args) s = some (handlePinTest s) := by
  simp [dispatch, dispatchCmd]

/-- Dispatch reduction for `MOVE_TIME`. -/
theorem dispatch_move_time (now : Nat) (inp : Inputs) (args : List String) (s : State) :
    dispatch now inp ("MOVE_TIME" :: args) s = handleMoveTime now args s := by
  simp [dispatch, dispatchCmd]

/-- Closed form of `stopMotor` for motor 0. -/
theorem stopMotor_zero (s : State) :
    stopMotor 0 s = ({ s with in1 := false, in2 := false, ena := 0 },
      [Event.digitalWrite IN1 false, Event.digitalWrite IN2 false, Event.analogWrite ENA 0]) := by
  simp [stopMotor, digitalWrite, analogWrite, ENA, ENB, IN1, IN2, IN3, IN4,
        FEEDBACK_MOTOR_PIN_FWD, FEEDBACK_MOTOR_PIN_REV]

/-- Closed form of `stopMotor` for motor 1. -/
theorem stopMotor_one (s : State) :
    stopMotor 1 s = ({ s with in3 := false, in4 := false, enb := 0 },
      [Event.digitalWrite IN3 false, Event.digitalWrite IN4 false, Event.analogWrite ENB 0]) := by
  simp [stopMotor, digitalWrite, analogWrite, ENA, ENB, IN1, IN2, IN3, IN4,
        FEEDBACK_MOTOR_PIN_FWD, FEEDBACK_MOTOR_PIN_REV]

/-- Closed form of `runMotor` for motor 0. -/
theorem runMotor_zero (f : Bool) (s : State) :
    runMotor 0 f s = ({ s with in1 := f, in2 := !f, ena := s.motor_speeds0 },
      [Event.digitalWrite IN1 f, Event.digitalWrite IN2 (!f),
       Event.analogWrite ENA s.motor_speeds0]) := by
  simp [runMotor, digitalWrite, analogWrite, ENA, ENB, IN1, IN2, IN3, IN4,
        FEEDBACK_MOTOR_PIN_FWD, FEEDBACK_MOTOR_PIN_REV]

/-- Closed form of `runMotor` for motor 1. -/
theorem runMotor_one (f : Bool) (s : State) :
    runMotor 1 f s = ({ s with in3 := f, in4 := !f, enb := s.motor_speeds1 },
      [Event.digitalWrite IN3 f, Event.digitalWrite IN4 (!f),
       Event.analogWrite ENB s.motor_speeds1]) := by
  simp [runMotor, digitalWrite, analogWrite, ENA, ENB, IN1, IN2, IN3, IN4,
        FEEDBACK_MOTOR_PIN_FWD, FEEDBACK_MOTOR_PIN_REV]

/-- Starting a timed move emits no serial line. -/
theorem serialOut_startTimedMove (now : Nat) (id : Int) (f : Bool) (dur : Nat) (s : State) :
    serialOut (startTimedMove now id f dur s).2 = [] := by
  unfold startTimedMove
  exact serialOut_runMotor _ _ _

/-- The Arduino map applied as the SET_SPEED handler does is the
truncating division `(p * 255) / 100`. -/
theorem c_map_speed (p : Int) : c_map p 0 100 0 255 = Int.tdiv (p * 255) 100 := by
  simp [c_map]

/-- Calibration fields after `setup` are exactly the validated loads. -/
theorem setup_cal (emm edeg : Int) :
    (setup emm edeg).1.ms_per_mm = loadCalMm emm ∧
    (setup emm edeg).1.ms_per_deg = loadCalDeg edeg := by
  simp [setup, stopMotor_zero, stopMotor_one]

end Helpers

/-- Claim C1, counterexample to the claim as stated: a tick of
`updateTimedMove` at elapsed time 1000 ms ≥ duration 1000 ms completes
the active move for motor 0 (the slot is cleared to `-1`), yet the tick
emits no serial line at all — in particular not the single `MOVE_DONE:0`
line the claim requires. -/
theorem C1_counterexample :
    exMoveState.timed_move_motor_id = 0 ∧
    exMoveState.move_duration ≤ usub 1000 exMoveState.move_timer_start ∧
    (updateTimedMove 1000 exMoveState).1.timed_move_motor_id = -1 ∧
    serialOut (updateTimedMove 1000 exMoveState).2 ≠ ["MOVE_DONE:0"] ∧
    serialOut (updateTimedMove 1000 exMoveState).2 = [] := by
  decide

/-- Claim C1 (amended): on a tick of `updateTimedMove` while a timed
move is active, if the elapsed (32-bit wrap-around) time since the
move's start has reached its duration, the scheduler stops that motor
and clears the slot to the `-1` sentinel but emits nothing — the
firmware has no `MOVE_DONE` message; if the elapsed time is below the
duration, the move stays active, the state is untouched and nothing is
emitted. -/
theorem C1_tick (now : Nat) (s : State) (hact : s.timed_move_motor_id ≠ -1) :
    (s.move_duration ≤ usub now s.move_timer_start →
       (updateTimedMove now s).1 =
         { (stopMotor s.timed_move_motor_id s).1 with timed_move_motor_id := -1 } ∧
       serialOut (updateTimedMove now s).2 = []) ∧
    (usub now s.move_timer_start < s.move_duration →
       updateTimedMove now s = (s, [])) := by
  constructor
  · intro hdone
    unfold updateTimedMove
    rw [if_pos hact, if_pos hdone]
    exact ⟨rfl, serialOut_stopMotor _ _⟩
  · intro hlt
    unfold updateTimedMove
    rw [if_pos hact, if_neg (by omega)]

/-- Witness for C1: the amended tick behaviour instantiated on the
concrete move state, at its completion time. -/
theorem C1_tick_witness :
    (updateTimedMove 1000 exMoveState).1 =
      { (stopMotor exMoveState.timed_move_motor_id exMoveState).1 with
          timed_move_motor_id := -1 } ∧
    serialOut (updateTimedMove 1000 exMoveState).2 = [] :=
  (C1_tick 1000 exMoveState (by decide)).1 (by decide)

/-- Claim C8 (confirmed): dispatching `MOTOR_CMD:<id>:STOP` while the
timed move for that same motor id is active drives that motor's
direction pins low and its PWM to 0, but leaves all three scheduler
slot fields unchanged, so the scheduler still considers the move
active afterward. -/
theorem C8_stop_keeps_slot (now : Nat) (inp : Inputs) (id_tok : String)
    (rest : List String) (s s2 : State) (evs : List Event)
    (hd : dispatch now inp ("MOTOR_CMD" :: id_tok :: "STOP" :: rest) s = some (s2, evs))
    (hsame : c_atoi id_tok = s.timed_move_motor_id)
    (hact : s.timed_move_motor_id ≠ -1) :
    slotOf s2 = slotOf s ∧ s2.timed_move_motor_id ≠ -1 ∧
    (s.timed_move_motor_id = 0 → s2.in1 = false ∧ s2.in2 = false ∧ s2.ena = 0) ∧
    (s.timed_move_motor_id = 1 → s2.in3 = false ∧ s2.in4 = false ∧ s2.enb = 0) := by
  rw [dispatch_motor_cmd] at hd
  have hred : handleMotorCmd (id_tok :: "STOP" :: rest) s =
      some (stopMotor (c_atoi id_tok) s) := by
    simp [handleMotorCmd]
  rw [hred, hsame] at hd
  have h := Option.some.inj hd
  have hs2 : s2 = (stopMotor s.timed_move_motor_id s).1 := by rw [h]
  have hslot : slotOf s2 = slotOf s := by rw [hs2, slotOf_stopMotor]
  refine ⟨hslot, ?_, ?_, ?_⟩
  · have : s2.timed_move_motor_id = s.timed_move_motor_id := congrArg Prod.fst hslot
    rw [this]; exact hact
  · intro h0
    rw [hs2, h0, stopMotor_zero]
    exact ⟨rfl, rfl, rfl⟩
  · intro h1
    rw [hs2, h1, stopMotor_one]
    exact ⟨rfl, rfl, rfl⟩

/-- Witness for C8: `MOTOR_CMD:0:STOP` on the concrete state whose timed
move for motor 0 is active. -/
theorem C8_stop_keeps_slot_witness :
    slotOf { exMoveState with in1 := false, in2 := false, ena := 0 } = slotOf exMoveState ∧
    ({ exMoveState with in1 := false, in2 := false, ena := 0 } : State).timed_move_motor_id ≠ -1 ∧
    (exMoveState.timed_move_motor_id = 0 →
       ({ exMoveState with in1 := false, in2 := false, ena := 0 } : State).in1 = false ∧
       ({ exMoveState with in1 := false, in2 := false, ena := 0 } : State).in2 = false ∧
       ({ exMoveState with in1 := false, in2 := false, ena := 0 } : State).ena = 0) ∧
    (exMoveState.timed_move_motor_id = 1 →
       ({ exMoveState with in1 := false, in2 := false, ena := 0 } : State).in3 = false ∧
       ({ exMoveState with in1 := false, in2 := false, ena := 0 } : State).in4 = false ∧
       ({ exMoveState with in1 := false, in2 := false, ena := 0 } : State).enb = 0) :=
  C8_stop_keeps_slot 0 exInputs "0" [] exMoveState
    { exMoveState with in1 := false, in2 := false, ena := 0 }
    [Event.digitalWrite IN1 false, Event.digitalWrite IN2 false, Event.analogWrite ENA 0]
    (by decide) (by decide) (by decide)

/-- Claim C9, counterexample to the claim as stated: on the boot state
both PWM enable outputs carry 0, yet after `PIN_TEST` the enable of
motor 0 carries 255 (the stored speed setting), not the 0 it carried
immediately before the command; moreover the second direction pin of
motor A (`IN2`) is never driven high during the test. -/
theorem C9_counterexample :
    ((setup 0 0).1).ena = 0 ∧
    ((dispatch 0 exInputs ["PIN_TEST"] (setup 0 0).1).getD ((setup 0 0).1, [])).1.ena = 255 ∧
    ((dispatch 0 exInputs ["PIN_TEST"] (setup 0 0).1).getD ((setup 0 0).1, [])).2.contains
        (Event.digitalWrite IN2 true) = false ∧
    dispatch 0 exInputs ["PIN_TEST"] (setup 0 0).1 ≠ none := by
  decide

/-- Claim C9 (amended): `PIN_TEST` writes 0 to both PWM enable outputs,
drives one direction pin of each motor (`IN1`, `IN3`) high while
holding the other (`IN2`, `IN4`) low, drives all four low after the
fixed 200 ms dwell, emits `PIN_TEST:OK`, and finally writes each
motor's stored speed setting (not necessarily the PWM value the enable
output carried before the command) to the PWM enable outputs. -/
theorem C9_pin_test (now : Nat) (inp : Inputs) (s : State) :
    dispatch now inp ["PIN_TEST"] s =
      some ({ s with in1 := false, in2 := false, in3 := false, in4 := false,
                     ena := s.motor_speeds0, enb := s.motor_speeds1 },
            [Event.analogWrite ENA 0, Event.analogWrite ENB 0,
             Event.digitalWrite IN1 true, Event.digitalWrite IN2 false,
             Event.digitalWrite IN3 true, Event.digitalWrite IN4 false,
             Event.delayMs 200,
             Event.digitalWrite IN1 false, Event.digitalWrite IN2 false,
             Event.digitalWrite IN3 false, Event.digitalWrite IN4 false,
             Event.serialLine "PIN_TEST:OK",
             Event.analogWrite ENA s.motor_speeds0, Event.analogWrite ENB s.motor_speeds1]) := by
  simp [dispatch, dispatchCmd, handlePinTest, digitalWrite, analogWrite, ENA, ENB,
        IN1, IN2, IN3, IN4, FEEDBACK_MOTOR_PIN_FWD, FEEDBACK_MOTOR_PIN_REV]

/-- Claim C2, counterexample to the claim as stated: `SET_SPEED:0:1`
stores 2 (the truncated `1*255/100`), while the claim's
`round(1*255/100)` is 3. -/
theorem C2_counterexample :
    ((dispatch 0 exInputs ["SET_SPEED", "0", "1"] (setup 0 0).1).getD
        ((setup 0 0).1, [])).1.motor_speeds0 = 2 ∧
    dispatch 0 exInputs ["SET_SPEED", "0", "1"] (setup 0 0).1 ≠ none ∧
    specSpeedOfPercent 1 = 3 := by
  decide

/-- Claim C2 (amended): for `SET_SPEED` with percent p in [0, 100] the
stored per-motor speed setting equals `(p * 255) / 100` with truncating
integer division (not rounding); the value lies in [0, 255]; id `*`
sets both motors, id 0 or 1 sets only that motor; and `runMotor` later
writes exactly the stored setting to the motor's PWM output. -/
theorem C2_set_speed (now : Nat) (inp : Inputs) (id_str sp_tok : String)
    (rest : List String) (s s2 : State) (evs : List Event)
    (hd : dispatch now inp ("SET_SPEED" :: id_str :: sp_tok :: rest) s = some (s2, evs))
    (h0 : 0 ≤ c_atoi sp_tok) (h100 : c_atoi sp_tok ≤ 100) :
    (id_str = "*" → s2.motor_speeds0 = Int.tdiv (c_atoi sp_tok * 255) 100 ∧
                    s2.motor_speeds1 = Int.tdiv (c_atoi sp_tok * 255) 100) ∧
    (c_atoi id_str = 0 → id_str ≠ "*" →
       s2.motor_speeds0 = Int.tdiv (c_atoi sp_tok * 255) 100 ∧
       s2.motor_speeds1 = s.motor_speeds1) ∧
    (c_atoi id_str = 1 → id_str ≠ "*" →
       s2.motor_speeds1 = Int.tdiv (c_atoi sp_tok * 255) 100 ∧
       s2.motor_speeds0 = s.motor_speeds0) ∧
    0 ≤ Int.tdiv (c_atoi sp_tok * 255) 100 ∧
    Int.tdiv (c_atoi sp_tok * 255) 100 ≤ 255 ∧
    (runMotor 0 true s2).1.ena = s2.motor_speeds0 ∧
    (runMotor 1 true s2).1.enb = s2.motor_speeds1 := by
  rw [dispatch_set_speed] at hd
  simp only [handleSetSpeed, c_map_speed] at hd
  have hnn : (0:Int) ≤ c_atoi sp_tok * 255 := by positivity
  have hb : 0 ≤ Int.tdiv (c_atoi sp_tok * 255) 100 ∧
      Int.tdiv (c_atoi sp_tok * 255) 100 ≤ 255 := by
    rw [Int.tdiv_eq_ediv hnn (by norm_num)]
    omega
  refine ⟨?_, ?_, ?_, hb.1, hb.2, ?_, ?_⟩
  · intro hstar
    rw [if_pos hstar] at hd
    obtain ⟨h1, _⟩ := Prod.mk.inj (Option.some.inj hd)
    rw [← h1]
    exact ⟨rfl, rfl⟩
  · intro hid0 hne
    rw [if_neg hne, if_pos (by rw [hid0]; norm_num), if_pos hid0] at hd
    obtain ⟨h1, _⟩ := Prod.mk.inj (Option.some.inj hd)
    rw [← h1]
    exact ⟨rfl, rfl⟩
  · intro hid1 hne
    rw [if_neg hne, if_pos (by rw [hid1]; norm_num), if_neg (by rw [hid1]; norm_num)] at hd
    obtain ⟨h1, _⟩ := Prod.mk.inj (Option.some.inj hd)
    rw [← h1]
    exact ⟨rfl, rfl⟩
  · rw [runMotor_zero]
  · rw [runMotor_one]

/-- Witness for C2: `SET_SPEED:0:50` on the boot state stores
`127 = (50 * 255) / 100` for motor 0 and leaves motor 1 untouched. -/
theorem C2_set_speed_witness :
    ({ (setup 0 0).1 with motor_speeds0 := 127 } : State).motor_speeds0 =
        Int.tdiv (c_atoi "50" * 255) 100 ∧
    ({ (setup 0 0).1 with motor_speeds0 := 127 } : State).motor_speeds1 =
        (setup 0 0).1.motor_speeds1 :=
  (C2_set_speed 0 exInputs "0" "50" [] (setup 0 0).1
    { (setup 0 0).1 with motor_speeds0 := 127 } []
    (by decide) (by decide) (by decide)).2.1 (by decide) (by decide)

/-- Claim C3 (confirmed): the state holds a single timed-move slot, so at
most one move is ever active, and it is active exactly when
`timed_move_motor_id` differs from the `-1` sentinel; dispatching
`MOVE_TIME` overwrites all three slot fields with the new move's id,
start timestamp and duration, emits nothing (in particular no error),
and leaves exactly one active move when the new id is not the sentinel. -/
theorem C3_single_slot :
    (∀ s : State, activeMoves s ≤ 1) ∧
    (∀ s : State, s.timed_move_motor_id = -1 ↔ activeMoves s = 0) ∧
    (∀ (now : Nat) (inp : Inputs) (id_tok dir dur_tok : String) (rest : List String)
       (s s2 : State) (evs : List Event),
       dispatch now inp ("MOVE_TIME" :: id_tok :: dir :: dur_tok :: rest) s = some (s2, evs) →
         s2.timed_move_motor_id = c_atoi id_tok ∧
         s2.move_timer_start = now % U32 ∧
         s2.move_duration = toU32 (c_atoi dur_tok) ∧
         serialOut evs = [] ∧
         (c_atoi id_tok ≠ -1 → activeMoves s2 = 1)) := by
  refine ⟨?_, ?_, ?_⟩
  · intro s
    unfold activeMoves
    split_ifs <;> omega
  · intro s
    unfold activeMoves
    split_ifs with h <;> simp [h]
  · intro now inp id_tok dir dur_tok rest s s2 evs hd
    rw [dispatch_move_time] at hd
    simp only [handleMoveTime] at hd
    have h := Option.some.inj hd
    have hs2 : s2 = (startTimedMove now (c_atoi id_tok) (dir == "FWD")
        (toU32 (c_atoi dur_tok)) s).1 := by rw [h]
    have hevs : evs = (startTimedMove now (c_atoi id_tok) (dir == "FWD")
        (toU32 (c_atoi dur_tok)) s).2 := by rw [h]
    have hslot := slotOf_startTimedMove now (c_atoi id_tok) (dir == "FWD")
        (toU32 (c_atoi dur_tok)) s
    simp only [slotOf, Prod.mk.injEq] at hslot
    obtain ⟨h1, h2, h3⟩ := hslot
    rw [hs2]
    refine ⟨h1, h2, h3, ?_, ?_⟩
    · rw [hevs]
      exact serialOut_startTimedMove _ _ _ _ _
    · intro hne
      unfold activeMoves
      rw [h1, if_neg hne]

/-- Witness for C3: `MOVE_TIME:1:FWD:2000` dispatched at time 5 while
the concrete move for motor 0 is active replaces the slot. -/
theorem C3_single_slot_witness :
    activeMoves exMoveState ≤ 1 ∧
    (({ exMoveState with
          timed_move_motor_id := 1, move_timer_start := 5,
          move_duration := 2000, in3 := true, in4 := false, enb := 255 } : State).timed_move_motor_id
        = c_atoi "1" ∧
     ({ exMoveState with
          timed_move_motor_id := 1, move_timer_start := 5,
          move_duration := 2000, in3 := true, in4 := false, enb := 255 } : State).move_timer_start
        = 5 % U32 ∧
     ({ exMoveState with
          timed_move_motor_id := 1, move_timer_start := 5,
          move_duration := 2000, in3 := true, in4 := false, enb := 255 } : State).move_duration
        = toU32 (c_atoi "2000") ∧
     serialOut [Event.digitalWrite IN3 true, Event.digitalWrite IN4 false,
        Event.analogWrite ENB 255] = [] ∧
     (c_atoi "1" ≠ -1 → activeMoves
        { exMoveState with
            timed_move_motor_id := 1, move_timer_start := 5,
            move_duration := 2000, in3 := true, in4 := false, enb := 255 } = 1)) :=
  ⟨C3_single_slot.1 exMoveState,
   C3_single_slot.2.2 5 exInputs "1" "FWD" "2000" [] exMoveState
     { exMoveState with
         timed_move_motor_id := 1, move_timer_start := 5,
         move_duration := 2000, in3 := true, in4 := false, enb := 255 }
     [Event.digitalWrite IN3 true, Event.digitalWrite IN4 false, Event.analogWrite ENB 255]
     (by decide)⟩

/-- Claim C4 (confirmed): after `setup`, a non-positive stored ms-per-mm
(resp. ms-per-deg) yields the default 50 (resp. 10), and a positive
stored value is kept as loaded. -/
theorem C4_cal_load (emm edeg : Int) :
    (emm ≤ 0 → (setup emm edeg).1.ms_per_mm = 50) ∧
    (0 < emm → (setup emm edeg).1.ms_per_mm = emm) ∧
    (edeg ≤ 0 → (setup emm edeg).1.ms_per_deg = 10) ∧
    (0 < edeg → (setup emm edeg).1.ms_per_deg = edeg) := by
  have h := setup_cal emm edeg
  refine ⟨?_, ?_, ?_, ?_⟩
  · intro hle
    rw [h.1]
    unfold loadCalMm
    rw [if_pos hle]
  · intro hgt
    rw [h.1]
    unfold loadCalMm
    rw [if_neg (by omega)]
  · intro hle
    rw [h.2]
    unfold loadCalDeg
    rw [if_pos hle]
  · intro hgt
    rw [h.2]
    unfold loadCalDeg
    rw [if_neg (by omega)]

/-- Witness for C4: a corrupted ms-per-mm (-7) falls back to 50 while a
positive ms-per-deg (9) is kept. -/
theorem C4_cal_load_witness :
    (setup (-7) 9).1.ms_per_mm = 50 ∧ (setup (-7) 9).1.ms_per_deg = 9 :=
  ⟨(C4_cal_load (-7) 9).1 (by decide), (C4_cal_load (-7) 9).2.2.2 (by decide)⟩

/-- Claim C5 (confirmed): after `SET_CAL:MS_PER_MM:60`, a `GET_CAL`
emits `CAL:MS_PER_MM:60:MS_PER_DEG:<v>` with the ms-per-deg value held
before the `SET_CAL`, and re-running the boot-time load on the
persisted cell reproduces 60. -/
theorem C5_cal_roundtrip (now now2 : Nat) (inp inp2 : Inputs) (s s1 : State)
    (ev1 : List Event)
    (hd : dispatch now inp ["SET_CAL", "MS_PER_MM", "60"] s = some (s1, ev1)) :
    dispatch now2 inp2 ["GET_CAL"] s1 =
      some (s1, [Event.serialLine ("CAL:MS_PER_MM:60:MS_PER_DEG:" ++ toString s.ms_per_deg)]) ∧
    loadCalMm s1.eeprom_mm = 60 := by
  rw [dispatch_set_cal] at hd
  have hsc : handleSetCal ["MS_PER_MM", "60"] s =
      ({ s with ms_per_mm := 60, eeprom_mm := 60 },
       [Event.serialLine ("SET_CAL:MS_PER_MM:" ++ toString (60:Int))]) := by
    have hc : c_atoi "60" = 60 := by decide
    simp [handleSetCal, hc]
  rw [hsc] at hd
  obtain ⟨h1, _⟩ := Prod.mk.inj (Option.some.inj hd)
  subst h1
  constructor
  · rw [dispatch_get_cal]
    simp only [handleGetCal]
    rw [show ("CAL:MS_PER_MM:" ++ toString (60:Int) ++ ":MS_PER_DEG:" : String) =
        "CAL:MS_PER_MM:60:MS_PER_DEG:" by decide]
  · exact (by decide : loadCalMm 60 = 60)

/-- Witness for C5: the round trip evaluated from the boot state. -/
theorem C5_cal_roundtrip_witness :
    dispatch 1 exInputs ["GET_CAL"] { (setup 0 0).1 with ms_per_mm := 60, eeprom_mm := 60 } =
      some ({ (setup 0 0).1 with ms_per_mm := 60, eeprom_mm := 60 },
        [Event.serialLine ("CAL:MS_PER_MM:60:MS_PER_DEG:" ++ toString (setup 0 0).1.ms_per_deg)]) ∧
    loadCalMm ({ (setup 0 0).1 with ms_per_mm := 60, eeprom_mm := 60 } : State).eeprom_mm = 60 :=
  C5_cal_roundtrip 0 1 exInputs exInputs (setup 0 0).1
    { (setup 0 0).1 with ms_per_mm := 60, eeprom_mm := 60 }
    [Event.serialLine ("SET_CAL:MS_PER_MM:" ++ toString (60:Int))]
    (by decide)

section MoreHelpers

/-- Transfer of a calibration frame fact along a pair equation inside
`some`. -/
theorem calOf_of_eq_some {f : State × List Event} {s s2 : State} {evs : List Event}
    (hf : calOf f.1 = calOf s) (h : some f = some (s2, evs)) : calOf s2 = calOf s := by
  have h2 := Option.some.inj h
  have h3 : f.1 = s2 := by rw [h2]
  rw [← h3]
  exact hf

/-- Homing does not touch the calibration fields. -/
theorem calOf_homeMotor (id : Int) (s : State) : calOf (homeMotor id s).1 = calOf s := rfl

/-- `moveMotorDistance` does not touch the calibration fields. -/
theorem calOf_moveMotorDistance (id : Int) (t : String) (s : State) :
    calOf (moveMotorDistance id t s).1 = calOf s := by
  unfold moveMotorDistance
  simp [calOf_digitalWrite, calOf_stopMotor, calOf_runMotor]

/-- `turnMotor` does not touch the calibration fields. -/
theorem calOf_turnMotor (id : Int) (t : String) (s : State) :
    calOf (turnMotor id t s).1 = calOf s := by
  unfold turnMotor
  simp [calOf_digitalWrite, calOf_stopMotor, calOf_runMotor]

/-- `testMotor` does not touch the calibration fields. -/
theorem calOf_testMotor (id : Int) (s : State) :
    calOf (testMotor id s).1 = calOf s := by
  unfold testMotor
  simp [calOf_stopMotor, calOf_runMotor]

/-- `trackSun` does not touch the calibration fields. -/
theorem calOf_trackSun (inp : Inputs) (s : State) :
    calOf (trackSun inp s).1 = calOf s := by
  simp only [trackSun]
  split_ifs <;> simp [calOf_stopMotor, calOf_runMotor]

/-- `handlePinTest` does not touch the calibration fields. -/
theorem calOf_handlePinTest (s : State) : calOf (handlePinTest s).1 = calOf s := by
  unfold handlePinTest
  simp [calOf_analogWrite, calOf_digitalWrite]

/-- `handleMotorCmd` does not touch the calibration fields. -/
theorem calOf_handleMotorCmd (args : List String) (s s2 : State) (evs : List Event)
    (h : handleMotorCmd args s = some (s2, evs)) : calOf s2 = calOf s := by
  match args with
  | [] => simp [handleMotorCmd] at h
  | [a] => simp [handleMotorCmd] at h
  | a :: b :: rest =>
    simp only [handleMotorCmd] at h
    split_ifs at h
    · exact calOf_of_eq_some (calOf_runMotor _ _ _) h
    · exact calOf_of_eq_some (calOf_runMotor _ _ _) h
    · exact calOf_of_eq_some (calOf_stopMotor _ _) h
    · exact calOf_of_eq_some (calOf_homeMotor _ _) h
    · exact calOf_of_eq_some rfl h

/-- `handleSetSpeed` does not touch the calibration fields. -/
theorem calOf_handleSetSpeed (args : List String) (s s2 : State) (evs : List Event)
    (h : handleSetSpeed args s = some (s2, evs)) : calOf s2 = calOf s := by
  match args with
  | [] => simp [handleSetSpeed] at h
  | [a] => simp [handleSetSpeed] at h
  | a :: b :: rest =>
    simp only [handleSetSpeed] at h
    split_ifs at h <;> exact calOf_of_eq_some rfl h

/-- `handleSetOutput` does not touch the calibration fields. -/
theorem calOf_handleSetOutput (args : List String) (s s2 : State) (evs : List Event)
    (h : handleSetOutput args s = some (s2, evs)) : calOf s2 = calOf s := by
  match args with
  | [] => simp [handleSetOutput] at h
  | [a] => simp [handleSetOutput] at h
  | a :: b :: rest =>
    simp only [handleSetOutput] at h
    exact calOf_of_eq_some (calOf_digitalWrite _ _ _) h

/-- `handleMoveTime` does not touch the calibration fields. -/
theorem calOf_handleMoveTime (now : Nat) (args : List String) (s s2 : State)
    (evs : List Event) (h : handleMoveTime now args s = some (s2, evs)) :
    calOf s2 = calOf s := by
  match args with
  | [] => simp [handleMoveTime] at h
  | [a] => simp [handleMoveTime] at h
  | [a, b] => simp [handleMoveTime] at h
  | a :: b :: c :: rest =>
    simp only [handleMoveTime] at h
    exact calOf_of_eq_some (calOf_startTimedMove _ _ _ _ _) h

/-- `handleMoveDist` does not touch the calibration fields. -/
theorem calOf_handleMoveDist (args : List String) (s s2 : State) (evs : List Event)
    (h : handleMoveDist args s = some (s2, evs)) : calOf s2 = calOf s := by
  match args with
  | [] => simp [handleMoveDist] at h
  | [a] => simp [handleMoveDist] at h
  | a :: b :: rest =>
    simp only [handleMoveDist] at h
    exact calOf_of_eq_some (calOf_moveMotorDistance _ _ _) h

/-- `handleTurn` does not touch the calibration fields. -/
theorem calOf_handleTurn (args : List String) (s s2 : State) (evs : List Event)
    (h : handleTurn args s = some (s2, evs)) : calOf s2 = calOf s := by
  match args with
  | [] => simp [handleTurn] at h
  | [a] => simp [handleTurn] at h
  | a :: b :: rest =>
    simp only [handleTurn] at h
    exact calOf_of_eq_some (calOf_turnMotor _ _ _) h

/-- `handleCalibrate` does not touch the calibration fields. -/
theorem calOf_handleCalibrate (args : List String) (s s2 : State) (evs : List Event)
    (h : handleCalibrate args s = some (s2, evs)) : calOf s2 = calOf s := by
  match args with
  | [] => simp [handleCalibrate] at h
  | a :: rest =>
    simp only [handleCalibrate] at h
    split_ifs at h
    · exact calOf_of_eq_some rfl h
    · exact calOf_of_eq_some rfl h
    · exact calOf_of_eq_some rfl h

/-- `handleTestMotor` does not touch the calibration fields. -/
theorem calOf_handleTestMotor (args : List String) (s s2 : State) (evs : List Event)
    (h : handleTestMotor args s = some (s2, evs)) : calOf s2 = calOf s := by
  match args with
  | [] => simp [handleTestMotor] at h
  | a :: rest =>
    simp only [handleTestMotor] at h
    exact calOf_of_eq_some (calOf_testMotor _ _) h

/-- `handleSensorReport` does not touch the calibration fields. -/
theorem calOf_handleSensorReport (args : List String) (s : State) :
    calOf (handleSensorReport args s).1 = calOf s := by
  match args with
  | [] => rfl
  | a :: rest =>
    simp only [handleSensorReport]
    split_ifs <;> rfl

/-- Every dispatched command other than `SET_CAL` leaves the calibration
fields unchanged. -/
theorem calOf_dispatchCmd (now : Nat) (inp : Inputs) (command : String)
    (args : List String) (s s2 : State) (evs : List Event)
    (hd : dispatchCmd now inp command args s = some (s2, evs))
    (hne : command ≠ "SET_CAL") : calOf s2 = calOf s := by
  unfold dispatchCmd at hd
  by_cases h1 : command = "MOTOR_CMD"
  · rw [if_pos h1] at hd
    exact calOf_handleMotorCmd _ _ _ _ hd
  rw [if_neg h1] at hd
  by_cases h2 : command = "SET_SPEED"
  · rw [if_pos h2] at hd
    exact calOf_handleSetSpeed _ _ _ _ hd
  rw [if_neg h2] at hd
  by_cases h3 : command = "SET_OUTPUT"
  · rw [if_pos h3] at hd
    exact calOf_handleSetOutput _ _ _ _ hd
  rw [if_neg h3] at hd
  by_cases h4 : command = "GET_CAL"
  · rw [if_pos h4] at hd
    exact calOf_of_eq_some rfl hd
  rw [if_neg h4] at hd
  by_cases h5 : command = "SET_CAL"
  · exact absurd h5 hne
  rw [if_neg h5] at hd
  by_cases h6 : command = "PIN_TEST"
  · rw [if_pos h6] at hd
    exact calOf_of_eq_some (calOf_handlePinTest s) hd
  rw [if_neg h6] at hd
  by_cases h7 : command = "MOVE_TIME"
  · rw [if_pos h7] at hd
    exact calOf_handleMoveTime _ _ _ _ _ hd
  rw [if_neg h7] at hd
  by_cases h8 : command = "MOVE_DIST"
  · rw [if_pos h8] at hd
    exact calOf_handleMoveDist _ _ _ _ hd
  rw [if_neg h8] at hd
  by_cases h9 : command = "TURN"
  · rw [if_pos h9] at hd
    exact calOf_handleTurn _ _ _ _ hd
  rw [if_neg h9] at hd
  by_cases h10 : command = "CALIBRATE"
  · rw [if_pos h10] at hd
    exact calOf_handleCalibrate _ _ _ _ hd
  rw [if_neg h10] at hd
  by_cases h11 : command = "TRACK_SUN"
  · rw [if_pos h11] at hd
    exact calOf_of_eq_some (calOf_trackSun inp s) hd
  rw [if_neg h11] at hd
  by_cases h12 : command = "TEST_MOTOR"
  · rw [if_pos h12] at hd
    exact calOf_handleTestMotor _ _ _ _ hd
  rw [if_neg h12] at hd
  by_cases h13 : command = "SENSOR_REPORT"
  · rw [if_pos h13] at hd
    exact calOf_of_eq_some (calOf_handleSensorReport args s) hd
  rw [if_neg h13] at hd
  exact calOf_of_eq_some rfl hd

/-- The `SENSOR_STATE` line of sensor 1 with the pin number folded in. -/
theorem sensor_line_one (d : Int) :
    "SENSOR_STATE:" ++ toString SENSOR_PIN_1 ++ ":" ++ toString d =
      "SENSOR_STATE:2:" ++ toString d := by
  rw [show ("SENSOR_STATE:" ++ toString SENSOR_PIN_1 ++ ":" : String) =
      "SENSOR_STATE:2:" by decide]

/-- The `SENSOR_STATE` line of sensor 2 with the pin number folded in. -/
theorem sensor_line_two (d : Int) :
    "SENSOR_STATE:" ++ toString SENSOR_PIN_2 ++ ":" ++ toString d =
      "SENSOR_STATE:3:" ++ toString d := by
  rw [show ("SENSOR_STATE:" ++ toString SENSOR_PIN_2 ++ ":" : String) =
      "SENSOR_STATE:3:" by decide]

end MoreHelpers

/-- Claim C6 (confirmed): the sensor poll fires exactly when the fixed
250 ms interval has elapsed, independently of the reporting flag (the
flag influences neither the poll's trace nor any field other than
itself); on a poll, a `SENSOR_STATE:<pin>:<level>` line is emitted for a
sensor iff its freshly read level differs from the stored one, and the
stored level then equals the fresh level; before the interval elapses
nothing happens. -/
theorem C6_sensor_poll :
    (∀ (now : Nat) (d2 d3 : Int) (s : State) (b : Bool),
       (updateSensorStates now d2 d3 { s with sensor_report_enabled := b }).2 =
         (updateSensorStates now d2 d3 s).2 ∧
       (updateSensorStates now d2 d3 { s with sensor_report_enabled := b }).1 =
         { (updateSensorStates now d2 d3 s).1 with sensor_report_enabled := b }) ∧
    (∀ (now : Nat) (d2 d3 : Int) (s : State),
       SENSOR_CHECK_INTERVAL ≤ usub now s.last_sensor_check →
         serialOut (updateSensorStates now d2 d3 s).2 =
           (if d2 ≠ s.sensor1_last_state then ["SENSOR_STATE:2:" ++ toString d2] else []) ++
           (if d3 ≠ s.sensor2_last_state then ["SENSOR_STATE:3:" ++ toString d3] else []) ∧
         (updateSensorStates now d2 d3 s).1.sensor1_last_state = d2 ∧
         (updateSensorStates now d2 d3 s).1.sensor2_last_state = d3 ∧
         (updateSensorStates now d2 d3 s).1.last_sensor_check = now % U32 ∧
         (updateSensorStates now d2 d3 s).1.sensor_report_enabled = s.sensor_report_enabled) ∧
    (∀ (now : Nat) (d2 d3 : Int) (s : State),
       usub now s.last_sensor_check < SENSOR_CHECK_INTERVAL →
         updateSensorStates now d2 d3 s = (s, [])) := by
  refine ⟨?_, ?_, ?_⟩
  · intro now d2 d3 s b
    constructor
    · simp only [updateSensorStates]
      split_ifs <;> rfl
    · simp only [updateSensorStates]
      split_ifs <;> rfl
  · intro now d2 d3 s h
    simp only [updateSensorStates, if_pos h]
    split_ifs with h1 h2 h2 <;>
      simp_all [serialOut, sensor_line_one, sensor_line_two]
  · intro now d2 d3 s hlt
    unfold updateSensorStates
    rw [if_neg (by omega)]

/-- Witness for C6: the poll on the boot state at 250 ms reports both
sensors (levels 1 and 0 against the `-1` boot sentinels), and a poll at
100 ms does nothing. -/
theorem C6_sensor_poll_witness :
    (serialOut (updateSensorStates 250 1 0 (setup 0 0).1).2 =
       (if (1:Int) ≠ (setup 0 0).1.sensor1_last_state then
          ["SENSOR_STATE:2:" ++ toString (1:Int)] else []) ++
       (if (0:Int) ≠ (setup 0 0).1.sensor2_last_state then
          ["SENSOR_STATE:3:" ++ toString (0:Int)] else []) ∧
     (updateSensorStates 250 1 0 (setup 0 0).1).1.sensor1_last_state = 1 ∧
     (updateSensorStates 250 1 0 (setup 0 0).1).1.sensor2_last_state = 0 ∧
     (updateSensorStates 250 1 0 (setup 0 0).1).1.last_sensor_check = 250 % U32 ∧
     (updateSensorStates 250 1 0 (setup 0 0).1).1.sensor_report_enabled =
       (setup 0 0).1.sensor_report_enabled) ∧
    updateSensorStates 100 1 0 (setup 0 0).1 = ((setup 0 0).1, []) :=
  ⟨C6_sensor_poll.2.1 250 1 0 (setup 0 0).1 (by decide),
   C6_sensor_poll.2.2 100 1 0 (setup 0 0).1 (by decide)⟩

/-- Claim C7, counterexample to the claim as stated: from the boot state
(whose ms-per-mm is the positive 50), dispatching `SET_CAL:MS_PER_MM:-5`
stores -5 in `ms_per_mm`, which is not positive. -/
theorem C7_counterexample :
    0 < (setup 0 0).1.ms_per_mm ∧
    ((dispatch 0 exInputs ["SET_CAL", "MS_PER_MM", "-5"] (setup 0 0).1).getD
        ((setup 0 0).1, [])).1.ms_per_mm = -5 ∧
    ¬ 0 < ((dispatch 0 exInputs ["SET_CAL", "MS_PER_MM", "-5"] (setup 0 0).1).getD
        ((setup 0 0).1, [])).1.ms_per_mm ∧
    dispatch 0 exInputs ["SET_CAL", "MS_PER_MM", "-5"] (setup 0 0).1 ≠ none := by
  decide

/-- Claim C7 (amended): the boot load establishes positive calibration
fields, every dispatcher operation except `SET_CAL` (and both periodic
ticks) leaves them unchanged, but `SET_CAL` stores the parsed value
verbatim with no positivity validation — so positivity is preserved
exactly when the supplied value is positive. -/
theorem C7_cal_positivity :
    (∀ emm edeg : Int,
       0 < (setup emm edeg).1.ms_per_mm ∧ 0 < (setup emm edeg).1.ms_per_deg) ∧
    (∀ (now : Nat) (inp : Inputs) (toks : List String) (s s2 : State) (evs : List Event),
       dispatch now inp toks s = some (s2, evs) → toks.head? ≠ some "SET_CAL" →
       calOf s2 = calOf s) ∧
    (∀ (now : Nat) (d2 d3 : Int) (s : State),
       calOf (updateTimedMove now s).1 = calOf s ∧
       calOf (updateSensorStates now d2 d3 s).1 = calOf s) ∧
    (∀ (now : Nat) (inp : Inputs) (key val : String) (rest : List String)
       (s s2 : State) (evs : List Event),
       dispatch now inp ("SET_CAL" :: key :: val :: rest) s = some (s2, evs) →
         (key = "MS_PER_MM" → s2.ms_per_mm = c_atoi val ∧ s2.ms_per_deg = s.ms_per_deg) ∧
         (key = "MS_PER_DEG" → s2.ms_per_deg = c_atoi val ∧ s2.ms_per_mm = s.ms_per_mm) ∧
         (key ≠ "MS_PER_MM" → key ≠ "MS_PER_DEG" → calOf s2 = calOf s)) := by
  refine ⟨?_, ?_, ?_, ?_⟩
  · intro emm edeg
    have h := setup_cal emm edeg
    rw [h.1, h.2]
    unfold loadCalMm loadCalDeg
    constructor
    · split_ifs <;> omega
    · split_ifs <;> omega
  · intro now inp toks s s2 evs hd hne
    cases toks with
    | nil => exact calOf_of_eq_some rfl hd
    | cons command args =>
        have hne2 : command ≠ "SET_CAL" := fun heq => hne (by rw [heq]; rfl)
        exact calOf_dispatchCmd now inp command args s s2 evs hd hne2
  · intro now d2 d3 s
    constructor
    · unfold updateTimedMove
      split_ifs
      · exact calOf_stopMotor _ _
      · rfl
      · rfl
    · simp only [updateSensorStates]
      split_ifs <;> rfl
  · intro now inp key val rest s s2 evs hd
    rw [dispatch_set_cal] at hd
    refine ⟨?_, ?_, ?_⟩
    · intro hk
      subst hk
      simp [handleSetCal] at hd
      obtain ⟨h1, _⟩ := hd
      rw [← h1]
      exact ⟨rfl, rfl⟩
    · intro hk
      subst hk
      simp [handleSetCal] at hd
      obtain ⟨h1, _⟩ := hd
      rw [← h1]
      exact ⟨rfl, rfl⟩
    · intro hk1 hk2
      simp only [handleSetCal] at hd
      rw [if_neg hk1, if_neg hk2] at hd
      exact calOf_of_eq_some rfl hd

/-- Witness for C7: boot positivity, one non-`SET_CAL` command
(`MOTOR_CMD:0:FWD`) preserving the calibration pair, and
`SET_CAL:MS_PER_MM:-5` overwriting with the parsed value. -/
theorem C7_cal_positivity_witness :
    (0 < (setup 0 0).1.ms_per_mm ∧ 0 < (setup 0 0).1.ms_per_deg) ∧
    calOf { (setup 0 0).1 with in1 := true, in2 := false, ena := 255 } = calOf (setup 0 0).1 ∧
    (({ (setup 0 0).1 with ms_per_mm := -5, eeprom_mm := -5 } : State).ms_per_mm = c_atoi "-5" ∧
     ({ (setup 0 0).1 with ms_per_mm := -5, eeprom_mm := -5 } : State).ms_per_deg =
       (setup 0 0).1.ms_per_deg) :=
  ⟨C7_cal_positivity.1 0 0,
   C7_cal_positivity.2.1 3 exInputs ["MOTOR_CMD", "0", "FWD"] (setup 0 0).1
     { (setup 0 0).1 with in1 := true, in2 := false, ena := 255 }
     [Event.digitalWrite IN1 true, Event.digitalWrite IN2 false, Event.analogWrite ENA 255]
     (by decide) (by decide),
   (C7_cal_positivity.2.2.2 4 exInputs "MS_PER_MM" "-5" [] (setup 0 0).1
     { (setup 0 0).1 with ms_per_mm := -5, eeprom_mm := -5 }
     [Event.serialLine "SET_CAL:MS_PER_MM:-5"] (by decide)).1 rfl⟩

/-- Claim C10 (confirmed): for a motor id outside {0, 1}, `runMotor` and
`stopMotor` change nothing and emit no pin or PWM write, and a
`SET_SPEED` naming such a numeric id leaves both motors' stored speed
settings unchanged. -/
theorem C10_invalid_id (id : Int) (forward : Bool) (s : State)
    (h0 : id ≠ 0) (h1 : id ≠ 1) :
    runMotor id forward s = (s, []) ∧
    stopMotor id s = (s, []) ∧
    (∀ (now : Nat) (inp : Inputs) (id_str sp_tok : String) (rest : List String)
       (s2 : State) (evs : List Event),
       dispatch now inp ("SET_SPEED" :: id_str :: sp_tok :: rest) s = some (s2, evs) →
       id_str ≠ "*" → c_atoi id_str = id →
       s2.motor_speeds0 = s.motor_speeds0 ∧ s2.motor_speeds1 = s.motor_speeds1) := by
  refine ⟨?_, ?_, ?_⟩
  · unfold runMotor
    rw [if_neg h0, if_neg h1]
  · unfold stopMotor
    rw [if_neg h0, if_neg h1]
  · intro now inp id_str sp_tok rest s2 evs hd hstar hid
    rw [dispatch_set_speed] at hd
    simp only [handleSetSpeed] at hd
    rw [if_neg hstar, if_neg (by rw [hid]; omega)] at hd
    obtain ⟨h2, _⟩ := Prod.mk.inj (Option.some.inj hd)
    rw [← h2]
    exact ⟨rfl, rfl⟩

/-- Witness for C10: motor id 2 on the boot state. -/
theorem C10_invalid_id_witness :
    runMotor 2 true (setup 0 0).1 = ((setup 0 0).1, []) ∧
    stopMotor 2 (setup 0 0).1 = ((setup 0 0).1, []) ∧
    ((setup 0 0).1.motor_speeds0 = (setup 0 0).1.motor_speeds0 ∧
     (setup 0 0).1.motor_speeds1 = (setup 0 0).1.motor_speeds1) := by
  have h := C10_invalid_id 2 true (setup 0 0).1 (by decide) (by decide)
  exact ⟨h.1, h.2.1,
    h.2.2 0 exInputs "2" "50" [] (setup 0 0).1 [] (by decide) (by decide) (by decide)⟩

end MotorCtl
